import Mathlib

/-!
Verification of `postnl_ai_api.py` (PostNL AI API, a Flask service that
turns natural-language queries into AG Grid state patches).

The Python module is shallowly embedded below:
* `JVal` models the JSON values that `json.loads` can produce (numbers are
  modelled as integers; non-integral numerics do not occur in any claim).
* `PyErr` models the Python exceptions that `generate_explanation` can raise;
  `Except PyErr` models raising vs. returning.
* The external services (the Gemini call, `json.dumps`, `json.loads`) are
  parameters of the handler: `ai_query` receives the serializer, the JSON
  parser, and the model call as functions, mirroring the fact that they are
  library/network effects outside the module under verification.
-/

/-- JSON values, as produced by `json.loads`. Numeric literals are modelled
as integers; floating-point numbers are outside the model. -/
inductive JVal where
  | null : JVal
  | bool : Bool → JVal
  | num : Int → JVal
  | str : String → JVal
  | arr : List JVal → JVal
  | obj : List (String × JVal) → JVal

mutual

/-- Structural (Python `==`) equality of JSON values. -/
def jvalBeq : JVal → JVal → Bool
  | .null, .null => true
  | .bool a, .bool b => a == b
  | .num a, .num b => a == b
  | .str a, .str b => a == b
  | .arr a, .arr b => jvalBeqL a b
  | .obj a, .obj b => jvalBeqKV a b
  | _, _ => false

/-- Elementwise equality of JSON lists. -/
def jvalBeqL : List JVal → List JVal → Bool
  | [], [] => true
  | a :: as, b :: bs => jvalBeq a b && jvalBeqL as bs
  | _, _ => false

/-- Pairwise equality of JSON object entries. -/
def jvalBeqKV : List (String × JVal) → List (String × JVal) → Bool
  | [], [] => true
  | (ka, va) :: as, (kb, vb) :: bs => ka == kb && jvalBeq va vb && jvalBeqKV as bs
  | _, _ => false

end

instance : BEq JVal := ⟨jvalBeq⟩

/-- Python exceptions that the embedded code can raise. The message strings
for `typeError` / `attributeError` are best-effort renderings of CPython's
messages; no claim depends on their exact text. -/
inductive PyErr where
  | keyError : String → PyErr
  | typeError : String → PyErr
  | attributeError : String → PyErr
  deriving DecidableEq, Repr

/-- Python `str(e)` for an exception: `str(KeyError(k))` is `repr(k)`,
i.e. the key in quotes; for the others it is the message. -/
def PyErr.strOf : PyErr → String
  | .keyError k => "'" ++ k ++ "'"
  | .typeError m => m
  | .attributeError m => m

/-- Python truthiness of a JSON value (`bool(v)`). -/
def pyTruthy : JVal → Bool
  | .null => false
  | .bool b => b
  | .num n => n != 0
  | .str s => !s.isEmpty
  | .arr xs => !xs.isEmpty
  | .obj kvs => !kvs.isEmpty

/-- Python `repr` of a string: quoted with `'`, or with `"` when the string
contains a single quote but no double quote. (Backslash/control-character
escaping is not modelled; no claim exercises it.) -/
def pyQuote (s : String) : String :=
  if s.toList.contains (Char.ofNat 39) && !(s.toList.contains (Char.ofNat 34)) then
    String.singleton (Char.ofNat 34) ++ s ++ String.singleton (Char.ofNat 34)
  else
    String.singleton (Char.ofNat 39) ++ s ++ String.singleton (Char.ofNat 39)

mutual

/-- Python `repr` of a JSON value. -/
def pyRepr : JVal → String
  | .null => "None"
  | .bool true => "True"
  | .bool false => "False"
  | .num n => toString n
  | .str s => pyQuote s
  | .arr xs => "[" ++ String.intercalate ", " (pyReprList xs) ++ "]"
  | .obj kvs => "\x7b" ++ String.intercalate ", " (pyReprKVs kvs) ++ "\x7d"

/-- Python `repr` of each element of a list. -/
def pyReprList : List JVal → List String
  | [] => []
  | x :: xs => pyRepr x :: pyReprList xs

/-- Python `repr` of each key/value pair of a dict. -/
def pyReprKVs : List (String × JVal) → List String
  | [] => []
  | (k, v) :: xs => (pyQuote k ++ ": " ++ pyRepr v) :: pyReprKVs xs

end

/-- Python `str` of a JSON value, as used by f-string interpolation:
identity on strings, `repr`-like on containers. -/
def pyStr : JVal → String
  | .str s => s
  | v => pyRepr v

/-- Boolean prefix test on character lists. -/
def isPrefB : List Char → List Char → Bool
  | [], _ => true
  | _ :: _, [] => false
  | a :: as, b :: bs => a == b && isPrefB as bs

/-- Boolean substring (contiguous sublist) test on character lists. -/
def isInfixB (p : List Char) : List Char → Bool
  | [] => p.isEmpty
  | l@(_ :: rest) => isPrefB p l || isInfixB p rest

/-- Python `key in v` (`in` on a dict checks keys, on a list checks
membership, on a string checks substring; otherwise `TypeError`). -/
def pyContains (key : String) (v : JVal) : Except PyErr Bool :=
  match v with
  | .obj kvs => .ok ((kvs.lookup key).isSome)
  | .arr xs => .ok (xs.contains (.str key))
  | .str s => .ok (isInfixB key.toList s.toList)
  | _ => .error (.typeError "argument is not iterable")

/-- Python `v[key]` for a string key. -/
def pySubscr (v : JVal) (key : String) : Except PyErr JVal :=
  match v with
  | .obj kvs =>
    match kvs.lookup key with
    | some x => .ok x
    | none => .error (.keyError key)
  | .str _ => .error (.typeError "string indices must be integers")
  | .arr _ => .error (.typeError "list indices must be integers")
  | _ => .error (.typeError "object is not subscriptable")

/-- The loop body of the `filterModel` block of `generate_explanation`:
for each `(col, filter_def)` item emit
`Filtered {col} {filter_def.get('type', 'contains')} '{filter_def.get('filter', '')}'`;
a non-dict `filter_def` raises `AttributeError` at `.get`. -/
def filterFrags : List (String × JVal) → Except PyErr (List String)
  | [] => .ok []
  | (col, fd) :: rest =>
    match fd with
    | .obj kvs =>
      let filter_value := (kvs.lookup "filter").getD (.str "")
      let filter_type := (kvs.lookup "type").getD (.str "contains")
      do
        let r ← filterFrags rest
        pure (("Filtered " ++ col ++ " " ++ pyStr filter_type ++ " '" ++ pyStr filter_value ++ "'") :: r)
    | _ => .error (.attributeError "object has no attribute get")

/-- The loop body of the `sortModel` block of `generate_explanation`:
for each entry read `sort['colId']` then `sort['sort']` (a missing key
raises `KeyError`, a non-dict entry raises `TypeError`), and emit
`Sorted by {colId} ({'descending' if sort == 'desc' else 'ascending'})`. -/
def sortFrags : List JVal → Except PyErr (List String)
  | [] => .ok []
  | e :: rest =>
    match e with
    | .obj kvs =>
      match kvs.lookup "colId" with
      | none => .error (.keyError "colId")
      | some cid =>
        match kvs.lookup "sort" with
        | none => .error (.keyError "sort")
        | some srt =>
          do
            let r ← sortFrags rest
            pure (("Sorted by " ++ pyStr cid ++ " (" ++ (if srt == .str "desc" then "descending" else "ascending") ++ ")") :: r)
    | _ => .error (.typeError "entry is not subscriptable by string")

/-- The `filterModel` block applied to the (truthy) value of the key:
`.items()` requires a dict. -/
def filterBlockV (v : JVal) : Except PyErr (List String) :=
  match v with
  | .obj kvs => filterFrags kvs
  | _ => .error (.attributeError "object has no attribute items")

/-- The `sortModel` block applied to the (truthy) value of the key:
iterating anything but a list yields items that are not string-subscriptable. -/
def sortBlockV (v : JVal) : Except PyErr (List String) :=
  match v with
  | .arr xs => sortFrags xs
  | _ => .error (.typeError "entry is not subscriptable by string")

/-- Python `', '.join(xs)` over the elements of a JSON list: every element
must be a string, otherwise `TypeError`. -/
def joinStrs : List JVal → Except PyErr (List String)
  | [] => .ok []
  | .str s :: rest => do
    let r ← joinStrs rest
    pure (s :: r)
  | _ :: _ => .error (.typeError "sequence item: expected str instance")

/-- The `rowGroupColumns` block applied to the (truthy) value of the key:
`', '.join(v)` — joining a list requires all-string elements, joining a
string joins its characters, joining a dict joins its keys. -/
def groupBlockV (v : JVal) : Except PyErr (List String) :=
  match v with
  | .arr xs => do
    let ss ← joinStrs xs
    pure (["Grouped by " ++ String.intercalate ", " ss])
  | .str s => .ok (["Grouped by " ++ String.intercalate ", " (s.toList.map String.singleton)])
  | .obj kvs => .ok (["Grouped by " ++ String.intercalate ", " (kvs.map (·.1))])
  | _ => .error (.typeError "can only join an iterable")

/-- One `if key in state and state[key]:` block of `generate_explanation`. -/
def keyBlock (state : JVal) (key : String) (blockF : JVal → Except PyErr (List String)) : Except PyErr (List String) := do
  let c ← pyContains key state
  if c then do
    let v ← pySubscr state key
    if pyTruthy v then blockF v else pure []
  else
    pure []

/-- Embedding of `generate_explanation(query, state)`: collect filter,
sort and group fragments in that order; with no fragments return
`Applied query: {query}`, otherwise the fragments joined by `' | '`. -/
def generate_explanation (query : String) (state : JVal) : Except PyErr String := do
  let f ← keyBlock state "filterModel" filterBlockV
  let s ← keyBlock state "sortModel" sortBlockV
  let g ← keyBlock state "rowGroupColumns" groupBlockV
  let explanations := f ++ s ++ g
  if explanations.isEmpty then
    pure ("Applied query: " ++ query)
  else
    pure (String.intercalate " | " explanations)

/-! ## The `/ai/query` handler -/

/-- Outcome of the external `model.generate_content` call: either an
exception (with its `str(e)` message) or a reply text. -/
inductive GeminiOutcome where
  | raise : String → GeminiOutcome
  | reply : String → GeminiOutcome

/-- Request body of `POST /ai/query`; `none` models an absent field
(the handler reads each with `data.get(k, default)`). -/
structure ReqData where
  query : Option String
  schema : Option JVal
  currentState : Option JVal
  tab : Option String

/-- The JSON body and status returned by the handler; `none` models an
absent key in the body. -/
structure Response where
  status : Nat
  success : Bool
  error : Option String
  newState : Option JVal
  explanation : Option String

/-- One run of the handler: the prompt sent to the external model
(`none` when no external call was made) and the response. -/
structure HandlerRun where
  calledWith : Option String
  response : Response

/-- Literal prompt text before the `CURRENT TAB:` label. -/
def promptIntro : String :=
  "You are an AI assistant that converts natural language queries into AG Grid state changes.\n\n"

/-- Literal prompt text before the interpolated `tab`. -/
def promptHeader : String := promptIntro ++ "CURRENT TAB: "

/-- Literal prompt text introducing the column descriptions. -/
def columnsIntro : String := "\n\nAVAILABLE COLUMNS AND THEIR MEANINGS:\n"

/-- Column-semantics description of the Parcels tab (static prompt text). -/
def parcelsCols : String :=
  "Parcels tab:\n- mode_of_transport: \"TRUCK\" or \"AIR\" (shipping method)\n- tracking_number: Parcel tracking ID\n- trip_number: Shipment/trip identifier\n- scac_code: Carrier code\n- consignee_name: Company receiving the parcel\n- weight: Parcel weight in kilograms\n- commercial_value: Value in USD\n- origin_country: Country of origin\n- dest_country: Destination country\n- source_file: Excel file this parcel came from"

/-- Column-semantics description of the Emails tab (static prompt text). -/
def emailsCols : String :=
  "Emails tab:\n- from_email: Sender email address (e.g., jency.varghese@spring-gds.com, thomas@rh-brokerage.com)\n- subject: Email subject line\n- received_date: When email was received\n- type: \"TRUCK\" (DSLQ emails), \"AIR\" (ORD/USA emails), or generic"

/-- Column-semantics description of the Shipments tab (static prompt text). -/
def shipmentsCols : String :=
  "Shipments tab:\n- trip_number: Trip/AWB identifier\n- mode: \"TRUCK\" or \"AIR\"\n- parcel_count: Number of parcels in shipment\n- total_weight: Total weight of shipment\n- source_file: Source file name"

/-- Column-semantics description of the Attachments tab (static prompt text). -/
def attachmentsCols : String :=
  "Attachments tab:\n- filename: Name of attached file\n- from_email: Sender who sent the attachment\n- size: File size in bytes\n- received_date: Date received"

/-- Literal prompt text before the serialized schema. -/
def promptSchemaHdr : String := "\n\nGRID SCHEMA:\n"

/-- Literal prompt text before the serialized current state. -/
def promptStateHdr : String := "\n\nCURRENT STATE:\n"

/-- Literal prompt text before the interpolated user query. -/
def promptQueryHdr : String := "\n\nUSER QUERY: \""

/-- Literal prompt text after the user query: the task instructions and
the input/output examples. -/
def promptTail : String :=
  "\"\n\nYour task:\n1. Understand what the user wants to do with the grid\n2. Generate a NEW grid state that accomplishes their goal\n3. Return ONLY valid JSON matching the schema structure\n\nCommon operations:\n- Filtering: Use filterModel to filter by column values\n- Sorting: Use sortModel to sort columns\n- Grouping: Use rowGroupColumns and groupKeys\n- Column visibility: Use columnState to hide/show columns\n\nExamples:\nQuery: \"Show me all TRUCK parcels\"\nResponse: \x7b\"filterModel\": \x7b\"mode_of_transport\": \x7b\"filterType\": \"text\", \"type\": \"equals\", \"filter\": \"TRUCK\"\x7d\x7d\x7d\n\nQuery: \"Sort by weight highest first\"\nResponse: \x7b\"sortModel\": [\x7b\"colId\": \"weight\", \"sort\": \"desc\"\x7d]\x7d\n\nQuery: \"Show emails from Jency\"\nResponse: \x7b\"filterModel\": \x7b\"from_email\": \x7b\"filterType\": \"text\", \"type\": \"contains\", \"filter\": \"jency\"\x7d\x7d\x7d\n\nQuery: \"Group by mode of transport\"\nResponse: \x7b\"rowGroupColumns\": [\"mode_of_transport\"]\x7d\n\nQuery: \"Filter to October parcels\"\nResponse: \x7b\"filterModel\": \x7b\"source_file\": \x7b\"filterType\": \"text\", \"type\": \"contains\", \"filter\": \"OCT\"\x7d\x7d\x7d\n\nNow generate the new state for the user's query. Return ONLY valid JSON.\n"

/-- The f-string `system_prompt` built by the handler, with the serialized
schema and state passed in as strings. -/
def systemPrompt (tab schemaStr stateStr user_query : String) : String :=
  promptHeader ++ tab ++ columnsIntro ++ parcelsCols ++ "\n\n" ++ emailsCols ++ "\n\n" ++ shipmentsCols ++ "\n\n" ++ attachmentsCols ++ promptSchemaHdr ++ schemaStr ++ promptStateHdr ++ stateStr ++ promptQueryHdr ++ user_query ++ promptTail

/-- A 500 response with the given error message (`jsonify({'success': False, 'error': m}), 500`). -/
def resp500 (m : String) : Response :=
  { status := 500, success := false, error := some m, newState := none, explanation := none }

/-- Embedding of the `/ai/query` handler. `dumpsF` models
`json.dumps(-, indent=2)`, `loadsF` models `json.loads` (returning the
`str(e)` of the `JSONDecodeError` on failure), and `gemini` models the
external `model.generate_content(...).text` call on the built prompt.
The exception raised by a failing `generate_explanation` is caught by the
handler's generic `except` clause and reported as a 500. -/
def ai_query (dumpsF : JVal → String) (loadsF : String → Except String JVal)
    (gemini : String → GeminiOutcome) (data : ReqData) : HandlerRun :=
  let user_query := data.query.getD ""
  let grid_schema := data.schema.getD (JVal.obj [])
  let current_state := data.currentState.getD (JVal.obj [])
  let tab := data.tab.getD "parcels"
  if user_query = "" then
    { calledWith := none,
      response := { status := 400, success := false, error := some "No query provided",
                    newState := none, explanation := none } }
  else
    let prompt := systemPrompt tab (dumpsF grid_schema) (dumpsF current_state) user_query
    match gemini prompt with
    | .raise m => { calledWith := some prompt, response := resp500 m }
    | .reply text =>
      match loadsF text with
      | .error d =>
        { calledWith := some prompt,
          response := resp500 ("Invalid JSON response from AI: " ++ d) }
      | .ok new_state =>
        match generate_explanation user_query new_state with
        | .error e => { calledWith := some prompt, response := resp500 e.strOf }
        | .ok expl =>
          { calledWith := some prompt,
            response := { status := 200, success := true, error := none,
                          newState := some new_state, explanation := some expl } }

/-- The string `sub` occurs as a contiguous substring of `s`. -/
def containsStr (sub s : String) : Prop := ∃ a b, s = a ++ (sub ++ b)

/-- The entry list of a StatePatch object with an optional `filterModel`
(a dict), an optional `sortModel` (a list), and an optional
`rowGroupColumns` (a list of column-name strings); `none` means the key
is absent. -/
def stKvs (fm : Option (List (String × JVal))) (sm : Option (List JVal))
    (rg : Option (List String)) : List (String × JVal) :=
  (fm.map (fun l => ("filterModel", JVal.obj l))).toList ++
    (sm.map (fun l => ("sortModel", JVal.arr l))).toList ++
    (rg.map (fun l => ("rowGroupColumns", JVal.arr (l.map JVal.str)))).toList

/-- A StatePatch with the given optional components. -/
def stateOf (fm : Option (List (String × JVal))) (sm : Option (List JVal))
    (rg : Option (List String)) : JVal :=
  JVal.obj (stKvs fm sm rg)

/-- The filter fragment for one `filterModel` entry, as the spec words it:
`Filtered <column> <type-or-contains> '<filter-or-empty>'` (values rendered
by Python string interpolation). -/
def filterFragSpec (p : String × JVal) : String :=
  match p.2 with
  | .obj kvs =>
    "Filtered " ++ p.1 ++ " " ++ pyStr ((kvs.lookup "type").getD (.str "contains")) ++
      " '" ++ pyStr ((kvs.lookup "filter").getD (.str "")) ++ "'"
  | _ => ""

/-- The sort fragment for one `sortModel` entry, as the spec words it:
`Sorted by <colId> (descending)` when the entry's `sort` is `"desc"`,
`Sorted by <colId> (ascending)` otherwise. -/
def sortFragSpec (e : JVal) : String :=
  match e with
  | .obj kvs =>
    "Sorted by " ++ pyStr ((kvs.lookup "colId").getD .null) ++ " (" ++
      (if (kvs.lookup "sort").getD .null == JVal.str "desc" then "descending" else "ascending") ++ ")"
  | _ => ""

/-- The precondition of claim C9 on a StatePatch's entries: whenever a
truthy `filterModel` is present, it is a mapping all of whose values are
mappings, and whenever a truthy `sortModel` is present, it is a list all
of whose entries are mappings containing both `colId` and `sort`. -/
def statePre (st : List (String × JVal)) : Prop :=
  (∀ v, st.lookup "filterModel" = some v → pyTruthy v = true →
    ∃ kvs, v = JVal.obj kvs ∧ ∀ p ∈ kvs, ∃ w, p.2 = JVal.obj w) ∧
  (∀ v, st.lookup "sortModel" = some v → pyTruthy v = true →
    ∃ xs, v = JVal.arr xs ∧ ∀ e ∈ xs, ∃ kvs, e = JVal.obj kvs ∧
      (kvs.lookup "colId").isSome = true ∧ (kvs.lookup "sort").isSome = true)

/-! ## Claims C1, C3, C4: request validation and error paths -/

/-- Claim C1 (amended): for every request whose `query` field is empty or
absent, the handler returns HTTP 400 with body
`{success: false, error: "No query provided"}` and makes no call to the
external model. (The original claim also covered whitespace-only queries;
see the counterexample: a whitespace-only query is truthy in Python, so it
is not rejected.) -/
theorem C1_empty_query_rejected (d : JVal → String) (l : String → Except String JVal)
    (g : String → GeminiOutcome) (rq : ReqData) (h : rq.query.getD "" = "") :
    ai_query d l g rq =
      { calledWith := none,
        response := { status := 400, success := false, error := some "No query provided",
                      newState := none, explanation := none } } := by
  simp [ai_query, h]

/-- Claim C1, witness: a request with `query = ""` is rejected with the
400 body and no external call. -/
theorem C1_witness :
    ai_query (fun _ => "") (fun _ => Except.error "e") (fun _ => GeminiOutcome.raise "b")
        { query := some "", schema := none, currentState := none, tab := none } =
      { calledWith := none,
        response := { status := 400, success := false, error := some "No query provided",
                      newState := none, explanation := none } } :=
  C1_empty_query_rejected (fun _ => "") (fun _ => Except.error "e")
    (fun _ => GeminiOutcome.raise "b")
    { query := some "", schema := none, currentState := none, tab := none } (by rfl)

/-- Claim C1, counterexample to the original wording: a whitespace-only
query (`" "`) is not rejected — the handler proceeds, calls the external
model, and (here) reports the model failure as a 500, not a 400. -/
theorem C1_counterexample :
    (ai_query (fun _ => "") (fun _ => Except.error "e") (fun _ => GeminiOutcome.raise "boom")
        { query := some " ", schema := none, currentState := none, tab := none }).response.status ≠ 400 ∧
    (ai_query (fun _ => "") (fun _ => Except.error "e") (fun _ => GeminiOutcome.raise "boom")
        { query := some " ", schema := none, currentState := none, tab := none }).calledWith ≠ none := by
  constructor
  · intro h
    simp [ai_query, resp500] at h
  · intro h
    simp [ai_query, resp500] at h

/-- Claim C3 (confirmed): when the query is non-empty and the external
model call raises an exception with (non-empty) message `m`, the response
is HTTP 500 with `success = false`, `error` equal to the stringified
exception, and no `newState` (and no `explanation`). -/
theorem C3_external_error_500 (d : JVal → String) (l : String → Except String JVal)
    (g : String → GeminiOutcome) (rq : ReqData) (m : String)
    (hq : rq.query.getD "" ≠ "")
    (hg : g (systemPrompt (rq.tab.getD "parcels") (d (rq.schema.getD (JVal.obj [])))
        (d (rq.currentState.getD (JVal.obj []))) (rq.query.getD "")) = .raise m)
    (hm : m ≠ "") :
    (ai_query d l g rq).response =
      { status := 500, success := false, error := some m, newState := none, explanation := none } ∧
    m ≠ "" := by
  refine ⟨?_, hm⟩
  simp [ai_query, hq, hg, resp500]

/-- Claim C3, witness: a failing model call with message `network unreachable`
yields the 500 body with that message. -/
theorem C3_witness :
    (ai_query (fun _ => "") (fun _ => Except.error "x")
        (fun _ => GeminiOutcome.raise "network unreachable")
        { query := some "show parcels", schema := none, currentState := none, tab := none }).response =
      { status := 500, success := false, error := some "network unreachable",
        newState := none, explanation := none } ∧
    "network unreachable" ≠ "" :=
  C3_external_error_500 (fun _ => "") (fun _ => Except.error "x")
    (fun _ => GeminiOutcome.raise "network unreachable")
    { query := some "show parcels", schema := none, currentState := none, tab := none }
    "network unreachable" (by decide) rfl (by decide)

/-- Claim C4 (confirmed): when the query is non-empty, the external call
replies with text `t`, and `json.loads t` fails with detail `dmsg`, the
response is HTTP 500 with `success = false`, `error` equal to
`Invalid JSON response from AI: ` followed by the detail, and no `newState`. -/
theorem C4_invalid_json_500 (d : JVal → String) (l : String → Except String JVal)
    (g : String → GeminiOutcome) (rq : ReqData) (t dmsg : String)
    (hq : rq.query.getD "" ≠ "")
    (hg : g (systemPrompt (rq.tab.getD "parcels") (d (rq.schema.getD (JVal.obj [])))
        (d (rq.currentState.getD (JVal.obj []))) (rq.query.getD "")) = .reply t)
    (hl : l t = .error dmsg) :
    (ai_query d l g rq).response =
      { status := 500, success := false,
        error := some ("Invalid JSON response from AI: " ++ dmsg),
        newState := none, explanation := none } := by
  simp [ai_query, hq, hg, hl, resp500]

/-- Claim C4, witness: a reply that is not JSON produces the
`Invalid JSON response from AI: ` 500 body. -/
theorem C4_witness :
    (ai_query (fun _ => "") (fun _ => Except.error "Expecting value: line 1 column 1 (char 0)")
        (fun _ => GeminiOutcome.reply "not json")
        { query := some "show parcels", schema := none, currentState := none, tab := none }).response =
      { status := 500, success := false,
        error := some ("Invalid JSON response from AI: " ++ "Expecting value: line 1 column 1 (char 0)"),
        newState := none, explanation := none } :=
  C4_invalid_json_500 (fun _ => "") (fun _ => Except.error "Expecting value: line 1 column 1 (char 0)")
    (fun _ => GeminiOutcome.reply "not json")
    { query := some "show parcels", schema := none, currentState := none, tab := none }
    "not json" "Expecting value: line 1 column 1 (char 0)" (by decide) rfl rfl

/-! ## Claims C2, C10: prompt construction and `tab` handling -/

/-- With a non-empty query, the handler always sends the built system
prompt to the external model. -/
theorem aiQuery_calledWith (d : JVal → String) (l : String → Except String JVal)
    (g : String → GeminiOutcome) (rq : ReqData) (hq : rq.query.getD "" ≠ "") :
    (ai_query d l g rq).calledWith =
      some (systemPrompt (rq.tab.getD "parcels") (d (rq.schema.getD (JVal.obj [])))
        (d (rq.currentState.getD (JVal.obj []))) (rq.query.getD "")) := by
  simp only [ai_query]
  rw [if_neg hq]
  rcases hg : g (systemPrompt (rq.tab.getD "parcels") (d (rq.schema.getD (JVal.obj [])))
      (d (rq.currentState.getD (JVal.obj []))) (rq.query.getD "")) with m | t
  · simp
  · rcases hl : l t with e | st
    · simp [hl]
    · rcases he : generate_explanation (rq.query.getD "") st with e2 | x
      · simp [hl, he]
      · simp [hl, he]

/-- With a non-empty query, the response status is never 400. -/
theorem aiQuery_not400 (d : JVal → String) (l : String → Except String JVal)
    (g : String → GeminiOutcome) (rq : ReqData) (hq : rq.query.getD "" ≠ "") :
    (ai_query d l g rq).response.status ≠ 400 := by
  simp only [ai_query]
  rw [if_neg hq]
  rcases hg : g (systemPrompt (rq.tab.getD "parcels") (d (rq.schema.getD (JVal.obj [])))
      (d (rq.currentState.getD (JVal.obj []))) (rq.query.getD "")) with m | t
  · simp [resp500]
  · rcases hl : l t with e | st
    · simp [hl, resp500]
    · rcases he : generate_explanation (rq.query.getD "") st with e2 | x
      · simp [hl, he, resp500]
      · simp [hl, he, resp500]

/-- The system prompt interpolates the literal `tab` value right after
`CURRENT TAB: `. -/
theorem systemPrompt_contains_tab (tab A B q : String) :
    containsStr ("CURRENT TAB: " ++ tab) (systemPrompt tab A B q) :=
  ⟨promptIntro,
   columnsIntro ++ parcelsCols ++ "\n\n" ++ emailsCols ++ "\n\n" ++ shipmentsCols ++ "\n\n" ++
     attachmentsCols ++ promptSchemaHdr ++ A ++ promptStateHdr ++ B ++ promptQueryHdr ++ q ++ promptTail,
   by simp [systemPrompt, promptHeader, String.append_assoc]⟩

/-- The system prompt always carries the Parcels-tab column description. -/
theorem systemPrompt_contains_parcels (tab A B q : String) :
    containsStr parcelsCols (systemPrompt tab A B q) :=
  ⟨promptHeader ++ tab ++ columnsIntro,
   "\n\n" ++ emailsCols ++ "\n\n" ++ shipmentsCols ++ "\n\n" ++
     attachmentsCols ++ promptSchemaHdr ++ A ++ promptStateHdr ++ B ++ promptQueryHdr ++ q ++ promptTail,
   by simp [systemPrompt, String.append_assoc]⟩

/-- The system prompt always carries the Emails-tab column description. -/
theorem systemPrompt_contains_emails (tab A B q : String) :
    containsStr emailsCols (systemPrompt tab A B q) :=
  ⟨promptHeader ++ tab ++ columnsIntro ++ parcelsCols ++ "\n\n",
   "\n\n" ++ shipmentsCols ++ "\n\n" ++
     attachmentsCols ++ promptSchemaHdr ++ A ++ promptStateHdr ++ B ++ promptQueryHdr ++ q ++ promptTail,
   by simp [systemPrompt, String.append_assoc]⟩

/-- The system prompt always carries the Shipments-tab column description. -/
theorem systemPrompt_contains_shipments (tab A B q : String) :
    containsStr shipmentsCols (systemPrompt tab A B q) :=
  ⟨promptHeader ++ tab ++ columnsIntro ++ parcelsCols ++ "\n\n" ++ emailsCols ++ "\n\n",
   "\n\n" ++ attachmentsCols ++ promptSchemaHdr ++ A ++ promptStateHdr ++ B ++ promptQueryHdr ++ q ++ promptTail,
   by simp [systemPrompt, String.append_assoc]⟩

/-- The system prompt always carries the Attachments-tab column description. -/
theorem systemPrompt_contains_attachments (tab A B q : String) :
    containsStr attachmentsCols (systemPrompt tab A B q) :=
  ⟨promptHeader ++ tab ++ columnsIntro ++ parcelsCols ++ "\n\n" ++ emailsCols ++ "\n\n" ++ shipmentsCols ++ "\n\n",
   promptSchemaHdr ++ A ++ promptStateHdr ++ B ++ promptQueryHdr ++ q ++ promptTail,
   by simp [systemPrompt, String.append_assoc]⟩

/-- Claim C2 (amended): for every request with a non-empty query, the
prompt sent to the external model interpolates the `tab` value after
`CURRENT TAB: `, but the static column-semantics descriptions of all four
tabs (parcels, emails, shipments, attachments) are embedded in the prompt
regardless of the selected tab. -/
theorem C2_prompt_has_all_tab_descriptions (d : JVal → String)
    (l : String → Except String JVal) (g : String → GeminiOutcome) (rq : ReqData)
    (hq : rq.query.getD "" ≠ "") :
    ∃ p, (ai_query d l g rq).calledWith = some p ∧
      containsStr ("CURRENT TAB: " ++ rq.tab.getD "parcels") p ∧
      containsStr parcelsCols p ∧ containsStr emailsCols p ∧
      containsStr shipmentsCols p ∧ containsStr attachmentsCols p :=
  ⟨_, aiQuery_calledWith d l g rq hq, systemPrompt_contains_tab _ _ _ _,
   systemPrompt_contains_parcels _ _ _ _, systemPrompt_contains_emails _ _ _ _,
   systemPrompt_contains_shipments _ _ _ _, systemPrompt_contains_attachments _ _ _ _⟩

/-- Claim C2, witness: with `tab = "emails"` the sent prompt carries the
tab line and all four descriptions. -/
theorem C2_witness :
    ∃ p, (ai_query (fun _ => "S") (fun _ => Except.error "e") (fun _ => GeminiOutcome.raise "x")
        { query := some "show emails", schema := none, currentState := none,
          tab := some "emails" }).calledWith = some p ∧
      containsStr ("CURRENT TAB: " ++ "emails") p ∧
      containsStr parcelsCols p ∧ containsStr emailsCols p ∧
      containsStr shipmentsCols p ∧ containsStr attachmentsCols p :=
  C2_prompt_has_all_tab_descriptions (fun _ => "S") (fun _ => Except.error "e")
    (fun _ => GeminiOutcome.raise "x")
    { query := some "show emails", schema := none, currentState := none, tab := some "emails" }
    (by decide)

/-- Claim C2, counterexample to the original wording: with
`tab = "emails"` the prompt sent to the model still carries the
Parcels-tab column-semantics description, so the prompt does not contain
only the selected tab's description. -/
theorem C2_counterexample :
    (ai_query (fun _ => "S") (fun _ => Except.error "e") (fun _ => GeminiOutcome.raise "x")
        { query := some "show emails", schema := none, currentState := none,
          tab := some "emails" }).calledWith =
      some (systemPrompt "emails" "S" "S" "show emails") ∧
    containsStr parcelsCols (systemPrompt "emails" "S" "S" "show emails") :=
  ⟨aiQuery_calledWith (fun _ => "S") (fun _ => Except.error "e")
      (fun _ => GeminiOutcome.raise "x")
      { query := some "show emails", schema := none, currentState := none, tab := some "emails" }
      (by decide),
   systemPrompt_contains_parcels "emails" "S" "S" "show emails"⟩

/-- Claim C10 (confirmed): the handler performs no validation of `tab`:
for every string `tab` (also outside the enumerated set), a request with a
non-empty query is not rejected (status is never 400), the external call
is made, and the prompt interpolates the literal `tab` after
`CURRENT TAB: `. -/
theorem C10_no_tab_validation (d : JVal → String) (l : String → Except String JVal)
    (g : String → GeminiOutcome) (sch cst : Option JVal) (q tab : String) (hq : q ≠ "") :
    (ai_query d l g { query := some q, schema := sch, currentState := cst, tab := some tab }).calledWith =
      some (systemPrompt tab (d (sch.getD (JVal.obj []))) (d (cst.getD (JVal.obj []))) q) ∧
    containsStr ("CURRENT TAB: " ++ tab)
      (systemPrompt tab (d (sch.getD (JVal.obj []))) (d (cst.getD (JVal.obj []))) q) ∧
    (ai_query d l g { query := some q, schema := sch, currentState := cst, tab := some tab }).response.status ≠ 400 :=
  ⟨aiQuery_calledWith d l g _ hq, systemPrompt_contains_tab _ _ _ _, aiQuery_not400 d l g _ hq⟩

/-- Claim C10, witness: a request with `tab = "bogus"` (outside the
enumerated set) is not rejected and its prompt carries `CURRENT TAB: bogus`. -/
theorem C10_witness :
    (ai_query (fun _ => "J") (fun _ => Except.error "e") (fun _ => GeminiOutcome.raise "x")
        { query := some "group by mode", schema := none, currentState := none,
          tab := some "bogus" }).calledWith =
      some (systemPrompt "bogus" "J" "J" "group by mode") ∧
    containsStr ("CURRENT TAB: " ++ "bogus") (systemPrompt "bogus" "J" "J" "group by mode") ∧
    (ai_query (fun _ => "J") (fun _ => Except.error "e") (fun _ => GeminiOutcome.raise "x")
        { query := some "group by mode", schema := none, currentState := none,
          tab := some "bogus" }).response.status ≠ 400 :=
  C10_no_tab_validation (fun _ => "J") (fun _ => Except.error "e")
    (fun _ => GeminiOutcome.raise "x") none none "group by mode" "bogus" (by decide)

/-! ## Claims C5 to C9: `generate_explanation` -/

/-- Key lookup in a StatePatch: the `filterModel` component. -/
theorem stKvs_lookup_fm (fm : Option (List (String × JVal))) (sm : Option (List JVal))
    (rg : Option (List String)) :
    (stKvs fm sm rg).lookup "filterModel" = fm.map (fun l => JVal.obj l) := by
  cases fm <;> cases sm <;> cases rg <;> rfl

/-- Key lookup in a StatePatch: the `sortModel` component. -/
theorem stKvs_lookup_sm (fm : Option (List (String × JVal))) (sm : Option (List JVal))
    (rg : Option (List String)) :
    (stKvs fm sm rg).lookup "sortModel" = sm.map (fun l => JVal.arr l) := by
  cases fm <;> cases sm <;> cases rg <;> rfl

/-- Key lookup in a StatePatch: the `rowGroupColumns` component. -/
theorem stKvs_lookup_rg (fm : Option (List (String × JVal))) (sm : Option (List JVal))
    (rg : Option (List String)) :
    (stKvs fm sm rg).lookup "rowGroupColumns" = rg.map (fun l => JVal.arr (l.map JVal.str)) := by
  cases fm <;> cases sm <;> cases rg <;> rfl

/-- A `keyBlock` whose key is absent contributes no fragments. -/
theorem keyBlock_obj_none (st : List (String × JVal)) (key : String)
    (f : JVal → Except PyErr (List String)) (h : st.lookup key = none) :
    keyBlock (JVal.obj st) key f = .ok [] := by
  simp [keyBlock, pyContains, h, Bind.bind, Except.bind, Pure.pure, Except.pure]

/-- A `keyBlock` whose key is present runs its block on the value when the
value is truthy and is skipped otherwise. -/
theorem keyBlock_obj_some (st : List (String × JVal)) (key : String)
    (f : JVal → Except PyErr (List String)) (v : JVal) (h : st.lookup key = some v) :
    keyBlock (JVal.obj st) key f = if pyTruthy v then f v else .ok [] := by
  simp [keyBlock, pyContains, pySubscr, h, Bind.bind, Except.bind, Pure.pure, Except.pure]

/-- A `keyBlock` whose key is absent or maps to a falsy value contributes
no fragments. -/
theorem keyBlock_obj_falsy (st : List (String × JVal)) (key : String)
    (f : JVal → Except PyErr (List String))
    (h : ∀ v, st.lookup key = some v → pyTruthy v = false) :
    keyBlock (JVal.obj st) key f = .ok [] := by
  rcases hv : st.lookup key with _ | v
  · exact keyBlock_obj_none st key f hv
  · rw [keyBlock_obj_some st key f v hv, h v hv]
    simp

/-- Joining a list of strings succeeds and returns them unchanged. -/
theorem joinStrs_map (l : List String) : joinStrs (l.map JVal.str) = .ok l := by
  induction l with
  | nil => rfl
  | cons a t ih => simp [joinStrs, ih, Bind.bind, Except.bind, Pure.pure, Except.pure]

/-- When every `filterModel` value is a dict, the filter loop emits
exactly one fragment per entry, in entry order. -/
theorem filterFrags_eq_map (fm : List (String × JVal))
    (h : ∀ p ∈ fm, ∃ kvs, p.2 = JVal.obj kvs) :
    filterFrags fm = .ok (fm.map filterFragSpec) := by
  induction fm with
  | nil => rfl
  | cons p rest ih =>
    obtain ⟨kvs, hk⟩ := h p (List.mem_cons_self _ _)
    obtain ⟨c, v⟩ := p
    simp only at hk
    subst hk
    simp [filterFrags, filterFragSpec, ih (fun x hx => h x (List.mem_cons_of_mem _ hx)),
      Bind.bind, Except.bind, Pure.pure, Except.pure]

/-- When every `sortModel` entry is a dict with `colId` and `sort`, the
sort loop emits exactly one fragment per entry, in entry order. -/
theorem sortFrags_eq_map (sm : List JVal)
    (h : ∀ e ∈ sm, ∃ kvs, e = JVal.obj kvs ∧ (kvs.lookup "colId").isSome = true ∧
      (kvs.lookup "sort").isSome = true) :
    sortFrags sm = .ok (sm.map sortFragSpec) := by
  induction sm with
  | nil => rfl
  | cons e rest ih =>
    obtain ⟨kvs, he, hc, hs⟩ := h e (List.mem_cons_self _ _)
    subst he
    obtain ⟨cid, hcid⟩ := Option.isSome_iff_exists.mp hc
    obtain ⟨srt, hsrt⟩ := Option.isSome_iff_exists.mp hs
    simp [sortFrags, sortFragSpec, hcid, hsrt, ih (fun x hx => h x (List.mem_cons_of_mem _ hx)),
      Bind.bind, Except.bind, Pure.pure, Except.pure]

/-- If the filter loop completes, every `filterModel` value is a dict. -/
theorem filterFrags_ok_wf (fm : List (String × JVal)) (r : List String)
    (h : filterFrags fm = .ok r) : ∀ p ∈ fm, ∃ w, p.2 = JVal.obj w := by
  induction fm generalizing r with
  | nil => simp
  | cons p rest ih =>
    obtain ⟨c, v⟩ := p
    cases v with
    | obj kvs =>
      rcases hr : filterFrags rest with e | r2
      · simp [filterFrags, hr, Bind.bind, Except.bind] at h
      · intro x hx
        rcases List.mem_cons.mp hx with h1 | h2
        · subst h1; exact ⟨kvs, rfl⟩
        · exact ih r2 hr x h2
    | null => simp [filterFrags] at h
    | bool b => simp [filterFrags] at h
    | num n => simp [filterFrags] at h
    | str s => simp [filterFrags] at h
    | arr xs => simp [filterFrags] at h

/-- If the sort loop completes, every `sortModel` entry is a dict with
both `colId` and `sort`. -/
theorem sortFrags_ok_wf (sm : List JVal) (r : List String) (h : sortFrags sm = .ok r) :
    ∀ e ∈ sm, ∃ kvs, e = JVal.obj kvs ∧ (kvs.lookup "colId").isSome = true ∧
      (kvs.lookup "sort").isSome = true := by
  induction sm generalizing r with
  | nil => simp
  | cons e rest ih =>
    cases e with
    | obj kvs =>
      rcases hc : kvs.lookup "colId" with _ | cid
      · simp [sortFrags, hc] at h
      · rcases hs : kvs.lookup "sort" with _ | srt
        · simp [sortFrags, hc, hs] at h
        · rcases hr : sortFrags rest with e2 | r2
          · simp [sortFrags, hc, hs, hr, Bind.bind, Except.bind] at h
          · intro x hx
            rcases List.mem_cons.mp hx with h1 | h2
            · subst h1; exact ⟨kvs, rfl, by simp [hc], by simp [hs]⟩
            · exact ih r2 hr x h2
    | null => simp [sortFrags] at h
    | bool b => simp [sortFrags] at h
    | num n => simp [sortFrags] at h
    | str s => simp [sortFrags] at h
    | arr xs => simp [sortFrags] at h

/-- When all three blocks succeed and produce at least one fragment, the
explanation is their fragments, in block order, joined by `\x22 | \x22`. -/
theorem genexp_join (q : String) (stV : JVal) (F S G : List String)
    (k1 : keyBlock stV "filterModel" filterBlockV = .ok F)
    (k2 : keyBlock stV "sortModel" sortBlockV = .ok S)
    (k3 : keyBlock stV "rowGroupColumns" groupBlockV = .ok G)
    (hne : F ++ S ++ G ≠ []) :
    generate_explanation q stV = .ok (String.intercalate " | " (F ++ S ++ G)) := by
  rcases hfs : F ++ S ++ G with _ | ⟨a, t⟩
  · exact absurd hfs hne
  · simp [generate_explanation, k1, k2, k3, Bind.bind, Except.bind, Pure.pure, Except.pure, hfs]

/-- If `generate_explanation` returns normally, all three key blocks
returned normally. -/
theorem genexp_ok_blocks (q : String) (stV : JVal) (r : String)
    (h : generate_explanation q stV = .ok r) :
    ∃ F, keyBlock stV "filterModel" filterBlockV = .ok F ∧
    ∃ S, keyBlock stV "sortModel" sortBlockV = .ok S ∧
    ∃ G, keyBlock stV "rowGroupColumns" groupBlockV = .ok G := by
  rcases h1 : keyBlock stV "filterModel" filterBlockV with e | F
  · simp [generate_explanation, h1, Bind.bind, Except.bind] at h
  · rcases h2 : keyBlock stV "sortModel" sortBlockV with e | S
    · simp [generate_explanation, h1, h2, Bind.bind, Except.bind] at h
    · rcases h3 : keyBlock stV "rowGroupColumns" groupBlockV with e | G
      · simp [generate_explanation, h1, h2, h3, Bind.bind, Except.bind] at h
      · exact ⟨F, rfl, S, rfl, G, rfl⟩

/-- Claim C5 (confirmed): for every StatePatch combining optional
`filterModel`, `sortModel` and `rowGroupColumns` components (with at least
one fragment produced), the explanation is the filter fragments, then the
sort fragments, then — exactly when `rowGroupColumns` is non-empty — the
single fragment `Grouped by <comma-and-space-joined column list>`
preserving input order, all joined by `\x22 | \x22` in that fixed order. -/
theorem C5_explanation_fixed_order (q : String) (fm : Option (List (String × JVal)))
    (sm : Option (List JVal)) (rg : Option (List String)) (F S : List String)
    (hF : filterFrags (fm.getD []) = .ok F)
    (hS : sortFrags (sm.getD []) = .ok S)
    (hne : ¬(F = [] ∧ S = [] ∧ rg.getD [] = [])) :
    generate_explanation q (stateOf fm sm rg) =
      .ok (String.intercalate " | " (F ++ S ++
        (if rg.getD [] = [] then []
         else ["Grouped by " ++ String.intercalate ", " (rg.getD [])]))) := by
  have k1 : keyBlock (stateOf fm sm rg) "filterModel" filterBlockV = .ok F := by
    cases fm with
    | none =>
      have hF0 : F = [] := by simpa [filterFrags] using hF.symm
      subst hF0
      rw [stateOf]
      exact keyBlock_obj_none _ _ _ (by rw [stKvs_lookup_fm]; rfl)
    | some l =>
      cases l with
      | nil =>
        have hF0 : F = [] := by simpa [filterFrags] using hF.symm
        subst hF0
        rw [stateOf, keyBlock_obj_some _ _ _ _ (by rw [stKvs_lookup_fm]; rfl)]
        simp [pyTruthy]
      | cons p t =>
        rw [stateOf, keyBlock_obj_some _ _ _ _ (by rw [stKvs_lookup_fm]; rfl)]
        simpa [pyTruthy, filterBlockV] using hF
  have k2 : keyBlock (stateOf fm sm rg) "sortModel" sortBlockV = .ok S := by
    cases sm with
    | none =>
      have hS0 : S = [] := by simpa [sortFrags] using hS.symm
      subst hS0
      rw [stateOf]
      exact keyBlock_obj_none _ _ _ (by rw [stKvs_lookup_sm]; rfl)
    | some l =>
      cases l with
      | nil =>
        have hS0 : S = [] := by simpa [sortFrags] using hS.symm
        subst hS0
        rw [stateOf, keyBlock_obj_some _ _ _ _ (by rw [stKvs_lookup_sm]; rfl)]
        simp [pyTruthy]
      | cons p t =>
        rw [stateOf, keyBlock_obj_some _ _ _ _ (by rw [stKvs_lookup_sm]; rfl)]
        simpa [pyTruthy, sortBlockV] using hS
  have k3 : keyBlock (stateOf fm sm rg) "rowGroupColumns" groupBlockV =
      .ok (if rg.getD [] = [] then []
           else ["Grouped by " ++ String.intercalate ", " (rg.getD [])]) := by
    cases rg with
    | none =>
      rw [stateOf]
      rw [keyBlock_obj_none _ _ _ (by rw [stKvs_lookup_rg]; rfl)]
      simp
    | some l =>
      cases l with
      | nil =>
        rw [stateOf, keyBlock_obj_some _ _ _ _ (by rw [stKvs_lookup_rg]; rfl)]
        simp [pyTruthy]
      | cons a t =>
        rw [stateOf, keyBlock_obj_some _ _ _ _ (by rw [stKvs_lookup_rg]; rfl)]
        have hj := joinStrs_map (a :: t)
        simp only [List.map] at hj
        simp [pyTruthy, groupBlockV, hj, Bind.bind, Except.bind, Pure.pure, Except.pure]
  refine genexp_join q _ F S _ k1 k2 k3 ?_
  intro hcat
  rcases List.append_eq_nil.mp hcat with ⟨hFS, hG1⟩
  rcases List.append_eq_nil.mp hFS with ⟨hF1, hS1⟩
  apply hne
  refine ⟨hF1, hS1, ?_⟩
  by_contra hrg
  rw [if_neg hrg] at hG1
  exact absurd hG1 (by simp)

/-- Claim C5, witness: a patch with one filter, one sort and one group
column yields the three fragments in fixed order joined by `\x22 | \x22`. -/
theorem C5_witness :
    generate_explanation "show truck parcels"
      (stateOf
        (some [("mode_of_transport",
          JVal.obj [("filterType", JVal.str "text"), ("type", JVal.str "equals"),
            ("filter", JVal.str "TRUCK")])])
        (some [JVal.obj [("colId", JVal.str "weight"), ("sort", JVal.str "desc")]])
        (some ["mode_of_transport"])) =
      .ok "Filtered mode_of_transport equals 'TRUCK' | Sorted by weight (descending) | Grouped by mode_of_transport" :=
  C5_explanation_fixed_order "show truck parcels"
    (some [("mode_of_transport",
      JVal.obj [("filterType", JVal.str "text"), ("type", JVal.str "equals"),
        ("filter", JVal.str "TRUCK")])])
    (some [JVal.obj [("colId", JVal.str "weight"), ("sort", JVal.str "desc")]])
    (some ["mode_of_transport"])
    ["Filtered mode_of_transport equals 'TRUCK'"] ["Sorted by weight (descending)"]
    rfl rfl (by simp)

/-- Claim C6 (confirmed): for every `filterModel` (all of whose values are
dicts, as produced by the model), the explanation lists, in the mapping's
insertion order, one fragment
`Filtered <column> <type-or-contains-default> '<filter-or-empty-default>'`
per entry (see `filterFragSpec` for the defaulting of missing keys). -/
theorem C6_filter_fragment_shape (q : String) (fm : List (String × JVal))
    (h : ∀ p ∈ fm, ∃ kvs, p.2 = JVal.obj kvs) (hne : fm ≠ []) :
    generate_explanation q (stateOf (some fm) none none) =
      .ok (String.intercalate " | " (fm.map filterFragSpec)) := by
  rcases fm with _ | ⟨p, t⟩
  · exact absurd rfl hne
  · have k1 : keyBlock (stateOf (some (p :: t)) none none) "filterModel" filterBlockV =
        .ok ((p :: t).map filterFragSpec) := by
      rw [stateOf, keyBlock_obj_some _ _ _ _ (by rw [stKvs_lookup_fm]; rfl)]
      simpa [pyTruthy, filterBlockV] using filterFrags_eq_map (p :: t) h
    have k2 : keyBlock (stateOf (some (p :: t)) none none) "sortModel" sortBlockV = .ok [] := by
      rw [stateOf]
      exact keyBlock_obj_none _ _ _ (by rw [stKvs_lookup_sm]; rfl)
    have k3 : keyBlock (stateOf (some (p :: t)) none none) "rowGroupColumns" groupBlockV =
        .ok [] := by
      rw [stateOf]
      exact keyBlock_obj_none _ _ _ (by rw [stKvs_lookup_rg]; rfl)
    have hcat := genexp_join q _ _ _ _ k1 k2 k3 (by simp)
    simpa using hcat

/-- Claim C6, witness: the spec's own example — a `from_email` contains
filter on `jency` explains as `Filtered from_email contains 'jency'`. -/
theorem C6_witness :
    generate_explanation "emails from jency"
      (stateOf
        (some [("from_email",
          JVal.obj [("filterType", JVal.str "text"), ("type", JVal.str "contains"),
            ("filter", JVal.str "jency")])])
        none none) =
      .ok "Filtered from_email contains 'jency'" :=
  C6_filter_fragment_shape "emails from jency"
    [("from_email",
      JVal.obj [("filterType", JVal.str "text"), ("type", JVal.str "contains"),
        ("filter", JVal.str "jency")])]
    (by intro p hp; rw [List.mem_singleton] at hp; subst hp; exact ⟨_, rfl⟩)
    (by simp)

/-- Claim C7 (confirmed): for every `sortModel` whose entries are dicts
with `colId` and `sort`, the explanation lists, in sequence order, the
fragment `Sorted by <colId> (descending)` when the entry's `sort` equals
`"desc"` and `Sorted by <colId> (ascending)` for every other value. -/
theorem C7_sort_fragment_shape (q : String) (sm : List JVal)
    (h : ∀ e ∈ sm, ∃ kvs, e = JVal.obj kvs ∧ (kvs.lookup "colId").isSome = true ∧
      (kvs.lookup "sort").isSome = true)
    (hne : sm ≠ []) :
    generate_explanation q (stateOf none (some sm) none) =
      .ok (String.intercalate " | " (sm.map sortFragSpec)) := by
  rcases sm with _ | ⟨e, t⟩
  · exact absurd rfl hne
  · have k1 : keyBlock (stateOf none (some (e :: t)) none) "filterModel" filterBlockV =
        .ok [] := by
      rw [stateOf]
      exact keyBlock_obj_none _ _ _ (by rw [stKvs_lookup_fm]; rfl)
    have k2 : keyBlock (stateOf none (some (e :: t)) none) "sortModel" sortBlockV =
        .ok ((e :: t).map sortFragSpec) := by
      rw [stateOf, keyBlock_obj_some _ _ _ _ (by rw [stKvs_lookup_sm]; rfl)]
      simpa [pyTruthy, sortBlockV] using sortFrags_eq_map (e :: t) h
    have k3 : keyBlock (stateOf none (some (e :: t)) none) "rowGroupColumns" groupBlockV =
        .ok [] := by
      rw [stateOf]
      exact keyBlock_obj_none _ _ _ (by rw [stKvs_lookup_rg]; rfl)
    have hcat := genexp_join q _ _ _ _ k1 k2 k3 (by simp)
    simpa using hcat

/-- Claim C7, witness: the spec's own example — sorting by `weight`
descending explains as `Sorted by weight (descending)`. -/
theorem C7_witness :
    generate_explanation "sort by weight"
      (stateOf none (some [JVal.obj [("colId", JVal.str "weight"), ("sort", JVal.str "desc")]])
        none) =
      .ok "Sorted by weight (descending)" :=
  C7_sort_fragment_shape "sort by weight"
    [JVal.obj [("colId", JVal.str "weight"), ("sort", JVal.str "desc")]]
    (by intro e he; rw [List.mem_singleton] at he; subst he; exact ⟨_, rfl, rfl, rfl⟩)
    (by simp)

/-- Claim C8 (confirmed): for every query and every StatePatch whose
`filterModel`, `sortModel` and `rowGroupColumns` keys are each absent or
falsy (empty), `generate_explanation` returns exactly
`Applied query: <query>`. -/
theorem C8_fallback_applied_query (q : String) (st : List (String × JVal))
    (h1 : ∀ v, st.lookup "filterModel" = some v → pyTruthy v = false)
    (h2 : ∀ v, st.lookup "sortModel" = some v → pyTruthy v = false)
    (h3 : ∀ v, st.lookup "rowGroupColumns" = some v → pyTruthy v = false) :
    generate_explanation q (JVal.obj st) = .ok ("Applied query: " ++ q) := by
  simp [generate_explanation, keyBlock_obj_falsy st "filterModel" filterBlockV h1,
    keyBlock_obj_falsy st "sortModel" sortBlockV h2,
    keyBlock_obj_falsy st "rowGroupColumns" groupBlockV h3,
    Bind.bind, Except.bind, Pure.pure, Except.pure]

/-- Claim C8, witness: the empty patch explains as `Applied query: hello`. -/
theorem C8_witness :
    generate_explanation "hello" (JVal.obj []) = .ok ("Applied query: " ++ "hello") :=
  C8_fallback_applied_query "hello" [] (by simp) (by simp) (by simp)

/-- Claim C9 (confirmed): `generate_explanation` returns normally only
when every truthy `filterModel` is a dict of dicts and every truthy
`sortModel` is a list of dicts each containing `colId` and `sort`
(`statePre`); and on the concrete patch whose single `sortModel` entry
lacks `colId` it raises `KeyError('colId')` instead of returning. -/
theorem C9_explanation_totality (q : String) (st : List (String × JVal)) (r : String)
    (h : generate_explanation q (JVal.obj st) = .ok r) :
    statePre st ∧
    generate_explanation q
        (JVal.obj [("sortModel", JVal.arr [JVal.obj [("sort", JVal.str "desc")]])]) =
      .error (PyErr.keyError "colId") := by
  refine ⟨⟨?_, ?_⟩, rfl⟩
  · intro v hv htr
    obtain ⟨F, hFk, S, hSk, G, hGk⟩ := genexp_ok_blocks q _ r h
    rw [keyBlock_obj_some st _ _ v hv, if_pos htr] at hFk
    cases v with
    | obj kvs => exact ⟨kvs, rfl, filterFrags_ok_wf kvs F (by simpa [filterBlockV] using hFk)⟩
    | null => simp [filterBlockV] at hFk
    | bool b => simp [filterBlockV] at hFk
    | num n => simp [filterBlockV] at hFk
    | str s => simp [filterBlockV] at hFk
    | arr xs => simp [filterBlockV] at hFk
  · intro v hv htr
    obtain ⟨F, hFk, S, hSk, G, hGk⟩ := genexp_ok_blocks q _ r h
    rw [keyBlock_obj_some st _ _ v hv, if_pos htr] at hSk
    cases v with
    | arr xs => exact ⟨xs, rfl, sortFrags_ok_wf xs S (by simpa [sortBlockV] using hSk)⟩
    | null => simp [sortBlockV] at hSk
    | bool b => simp [sortBlockV] at hSk
    | num n => simp [sortBlockV] at hSk
    | str s => simp [sortBlockV] at hSk
    | obj kvs => simp [sortBlockV] at hSk

/-- Claim C9, witness: a normally-returning run (the empty patch) satisfies
the precondition, and the `colId`-less sort entry raises `KeyError('colId')`. -/
theorem C9_witness :
    statePre [] ∧
    generate_explanation "a"
        (JVal.obj [("sortModel", JVal.arr [JVal.obj [("sort", JVal.str "desc")]])]) =
      .error (PyErr.keyError "colId") :=
  C9_explanation_totality "a" [] "Applied query: a" rfl
